import Mathlib

/-!
Verification of the gs-rest-service monitoring tool (src/monitor.py).

The development shallowly embeds the monitor's core logic:
* the status tracker `ServiceMonitor.handle_status_change` (lines 132-167)
  together with its initial state from `ServiceMonitor.__init__` (lines 24-30),
* the per-attempt success test and retry loop of
  `ServiceMonitor.check_service` (lines 107-130),
* the notification dispatch `ServiceMonitor.send_slack_notification`
  (lines 64-105),
* the monitoring loop `ServiceMonitor.monitor_loop` (lines 169-202),
* the PID-file checks of `ServiceMonitor.run_as_daemon` (lines 211-230)
  and `manage_daemon`'s status action (lines 290-305).
-/

namespace Monitor

/-- The tracked service status; `self.service_status` holds one of the
strings "unknown", "up", "down". -/
inductive ServiceStatus where
  | unknown
  | up
  | down
deriving DecidableEq, Repr

/-- Kinds of Slack notifications emitted by the tracker; the code records
the last one in `self.last_notification` as "recovery" or "failure". -/
inductive Notification where
  | recovery
  | failure
deriving DecidableEq, Repr

/-- The mutable state of `ServiceMonitor` touched by
`handle_status_change`: `service_status`, `consecutive_failures`,
`consecutive_successes` and `last_notification` (lines 26-29). -/
structure MonitorState where
  service_status : ServiceStatus
  consecutive_failures : Nat
  consecutive_successes : Nat
  last_notification : Option Notification
deriving DecidableEq, Repr

/-- Initial state set by `ServiceMonitor.__init__` (lines 26-29):
status "unknown", both counters 0, empty last notification. -/
def initState : MonitorState :=
  { service_status := ServiceStatus.unknown
    consecutive_failures := 0
    consecutive_successes := 0
    last_notification := none }

/-- `ServiceMonitor.handle_status_change` (lines 132-167), as a pure
function from the old state and the `new_status` argument to the new
state together with the notification sent in this call (if any).
The branch structure mirrors the source: on a change, the "up" branch
notifies only when the old status was "down" (line 139), the else
branch notifies when the old status was "up" or "unknown" (line 150);
when nothing changed only the counters are updated (lines 161-167). -/
def handle_status_change (s : MonitorState) (new_status : ServiceStatus) :
    MonitorState × Option Notification :=
  let old_status := s.service_status
  if new_status ≠ old_status then
    if new_status = ServiceStatus.up then
      if old_status = ServiceStatus.down then
        ({ service_status := new_status
           consecutive_failures := 0
           consecutive_successes := s.consecutive_successes + 1
           last_notification := some Notification.recovery },
         some Notification.recovery)
      else
        ({ service_status := new_status
           consecutive_failures := 0
           consecutive_successes := s.consecutive_successes + 1
           last_notification := s.last_notification },
         none)
    else
      if old_status = ServiceStatus.up ∨ old_status = ServiceStatus.unknown then
        ({ service_status := new_status
           consecutive_failures := s.consecutive_failures + 1
           consecutive_successes := 0
           last_notification := some Notification.failure },
         some Notification.failure)
      else
        ({ service_status := new_status
           consecutive_failures := s.consecutive_failures + 1
           consecutive_successes := 0
           last_notification := s.last_notification },
         none)
  else
    if new_status = ServiceStatus.up then
      ({ s with consecutive_successes := s.consecutive_successes + 1
                consecutive_failures := 0 }, none)
    else
      ({ s with consecutive_failures := s.consecutive_failures + 1
                consecutive_successes := 0 }, none)

/-- `monitor_loop` maps a probe outcome to the status string passed to
`handle_status_change`: "up" on success, "down" on failure
(lines 178-183). -/
def statusOf (success : Bool) : ServiceStatus :=
  if success then ServiceStatus.up else ServiceStatus.down

/-- One tracker update for a probe outcome, as performed by one
iteration of `monitor_loop` (lines 178-183). -/
def processOutcome (s : MonitorState) (success : Bool) :
    MonitorState × Option Notification :=
  handle_status_change s (statusOf success)

/-- Feed a sequence of probe outcomes through the tracker, collecting
the notifications emitted, in order. -/
def runTracker : MonitorState → List Bool → MonitorState × List Notification
  | s, [] => (s, [])
  | s, o :: os =>
    let step := processOutcome s o
    let rest := runTracker step.1 os
    (rest.1, step.2.toList ++ rest.2)

/-- The outcome of one HTTP GET in `check_service` (lines 112-124):
either a response with some status code, or a raised
`requests.exceptions.RequestException` (DNS failure, connection
refused, timeout). -/
inductive ProbeResult where
  | response (status_code : Nat)
  | transportError
deriving DecidableEq, Repr

/-- The per-attempt success test of `check_service` (line 118): a
response counts as success exactly when `response.status_code == 200`;
a transport error falls to the except branch (line 123) and counts as
failure. -/
def attemptSuccess : ProbeResult → Bool
  | ProbeResult.response status_code => status_code == 200
  | ProbeResult.transportError => false

/-- The retry loop of `check_service` (lines 109-130), with the probe
modelled as a function from the 1-based attempt number to its result.
`runChecks probe attempt rem` runs attempts `attempt, attempt+1, ...`
while `rem` attempts remain, returning the overall result together
with the index of the last attempt performed (so `.2` counts the
attempts consulted when started at `attempt = 1`). -/
def runChecks (probe : Nat → ProbeResult) (attempt : Nat) :
    Nat → Bool × Nat
  | 0 => (false, attempt - 1)
  | Nat.succ rem =>
    if attemptSuccess (probe attempt) then (true, attempt)
    else runChecks probe (attempt + 1) rem

/-- `ServiceMonitor.check_service` (lines 107-130): up to
`config.retries` attempts starting at attempt 1, returning `true` on
the first success and `false` after the loop; the second component is
the number of attempts performed. -/
def check_service (probe : Nat → ProbeResult) (retries : Nat) :
    Bool × Nat :=
  runChecks probe 1 retries

/-- What happens to the webhook POST issued by
`send_slack_notification` (lines 98-103): either a response (with the
final status code seen by `raise_for_status`) or a raised transport
error. -/
inductive DeliveryOutcome where
  | delivered (status_code : Nat)
  | transportError
deriving DecidableEq, Repr

/-- Observable result of one `send_slack_notification` call:
whether an exception escaped to the caller, whether a warning was
logged, and whether the POST was attempted at all. -/
structure NotifyResult where
  raised : Bool
  warned : Bool
  attempted : Bool
deriving DecidableEq, Repr

/-- `ServiceMonitor.send_slack_notification` (lines 64-105): returns
immediately when `no_slack` is set or no webhook URL is configured
(line 66; `slack_webhook_present` is the Python truthiness of
`config['slack_webhook_url']`); otherwise POSTs, calls
`raise_for_status` (which raises exactly for status codes in
[400, 600)), and catches every exception, logging a warning
(lines 97-105). -/
def send_slack_notification (no_slack : Bool)
    (slack_webhook_present : Bool) (d : DeliveryOutcome) :
    NotifyResult :=
  if no_slack || !slack_webhook_present then
    { raised := false, warned := false, attempted := false }
  else
    match d with
    | DeliveryOutcome.transportError =>
      { raised := false, warned := true, attempted := true }
    | DeliveryOutcome.delivered status_code =>
      if 400 ≤ status_code ∧ status_code < 600 then
        { raised := false, warned := true, attempted := true }
      else
        { raised := false, warned := false, attempted := true }

/-- What one iteration of the `monitor_loop` body does after the
shutdown check (lines 177-200): completes a check with outcome
`ok success`, raises `KeyboardInterrupt`, or raises some other
exception. -/
inductive IterEvent where
  | ok (success : Bool)
  | interrupt
  | exn
deriving DecidableEq, Repr

/-- How `monitor_loop` ended, or that it is still running after the
given iterations. -/
inductive LoopResult where
  | running (s : MonitorState)
  | stoppedShutdown (s : MonitorState)
  | stoppedCheckOnce (s : MonitorState)
  | stoppedInterrupt (s : MonitorState)
deriving DecidableEq, Repr

/-- `ServiceMonitor.monitor_loop` (lines 176-200) over a finite trace
of iterations. Each trace element is the value of
`shutdown_event.is_set()` at the loop head together with what the body
did. The `while` condition (line 176) stops on a set shutdown flag;
`KeyboardInterrupt` breaks (lines 195-197); any other exception is
caught, logged and the loop continues after sleeping (lines 198-200);
a completed check updates the tracker (lines 178-183) and, in
check-once mode, breaks (lines 189-190). -/
def monitor_loop (check_once : Bool) :
    MonitorState → List (Bool × IterEvent) → LoopResult
  | s, [] => LoopResult.running s
  | s, (shutdown_set, ev) :: rest =>
    if shutdown_set then LoopResult.stoppedShutdown s
    else
      match ev with
      | IterEvent.interrupt => LoopResult.stoppedInterrupt s
      | IterEvent.exn => monitor_loop check_once s rest
      | IterEvent.ok success =>
        let s' := (processOutcome s success).1
        if check_once then LoopResult.stoppedCheckOnce s'
        else monitor_loop check_once s' rest

/-- Contents of the PID file when it exists: a parsable integer PID, or
text on which `int(f.read().strip())` raises `ValueError`
(lines 218-219, 229). -/
inductive PidContents where
  | valid (pid : Nat)
  | invalid
deriving DecidableEq, Repr

/-- Result of the already-running check at the top of `run_as_daemon`
(lines 216-230): either the start aborts via `sys.exit(1)` with the
"already running" error (lines 224-225, carrying the exit code), or it
proceeds to fork. -/
inductive StartOutcome where
  | alreadyRunning (pid : Nat) (exit_code : Nat)
  | proceed
deriving DecidableEq, Repr

/-- The PID-file check of `ServiceMonitor.run_as_daemon`
(lines 216-230), over the PID file contents (`none` = file absent) and
the liveness predicate realised by `os.kill(old_pid, 0)` (line 223).
A live recorded PID aborts with exit code 1 leaving the file alone; a
dead PID removes the stale file and proceeds (lines 226-228); a
missing or unparsable file proceeds without touching it
(lines 229-230). Returns the outcome and the PID file afterwards. -/
def run_as_daemon_check (alive : Nat → Bool) :
    Option PidContents → StartOutcome × Option PidContents
  | none => (StartOutcome.proceed, none)
  | some (PidContents.valid pid) =>
    if alive pid then
      (StartOutcome.alreadyRunning pid 1, some (PidContents.valid pid))
    else
      (StartOutcome.proceed, none)
  | some PidContents.invalid =>
    (StartOutcome.proceed, some PidContents.invalid)

/-- What `manage_daemon` prints for the "status" action
(lines 290-305). -/
inductive StatusReport where
  | running (pid : Nat)
  | notRunningStale
  | invalidPidFile
  | notRunning
deriving DecidableEq, Repr

/-- The "status" action of `manage_daemon` (lines 290-305): a missing
file reports not running; a live recorded PID reports running; a dead
PID reports "not running (stale PID file)" and removes the file
(lines 300-301); an unparsable file reports "Invalid PID file" and
leaves it (lines 302-303). Returns the report and the PID file
afterwards. -/
def manage_daemon_status (alive : Nat → Bool) :
    Option PidContents → StatusReport × Option PidContents
  | none => (StatusReport.notRunning, none)
  | some (PidContents.valid pid) =>
    if alive pid then
      (StatusReport.running pid, some (PidContents.valid pid))
    else
      (StatusReport.notRunningStale, none)
  | some PidContents.invalid =>
    (StatusReport.invalidPidFile, some PidContents.invalid)

/-! ### Helper lemmas about the tracker -/

/-- A tracker update emits a notification exactly when the observation
differs from the tracked status, except for the silent
unknown-to-up transition. -/
lemma processOutcome_isSome_iff (s : MonitorState) (o : Bool) :
    ((processOutcome s o).2).isSome = true ↔
      (statusOf o ≠ s.service_status ∧
        ¬ (s.service_status = ServiceStatus.unknown ∧ o = true)) := by
  rcases s with ⟨st, cf, cs, ln⟩
  cases st <;> cases o <;>
    simp [processOutcome, handle_status_change, statusOf]

/-- After any update the tracked status equals the status of the
processed outcome. -/
lemma processOutcome_status (s : MonitorState) (o : Bool) :
    (processOutcome s o).1.service_status = statusOf o := by
  rcases s with ⟨st, cf, cs, ln⟩
  cases st <;> cases o <;>
    simp [processOutcome, handle_status_change, statusOf]

/-- An observation matching the tracked status emits nothing and keeps
the status. -/
lemma processOutcome_same (s : MonitorState) (o : Bool)
    (h : s.service_status = statusOf o) :
    (processOutcome s o).2 = none ∧
      (processOutcome s o).1.service_status = s.service_status := by
  rcases s with ⟨st, cf, cs, ln⟩
  cases st <;> cases o <;> simp_all [processOutcome, handle_status_change, statusOf]

/-- Every update zeroes one of the two consecutive counters. -/
lemma processOutcome_counter_zero (s : MonitorState) (o : Bool) :
    (processOutcome s o).1.consecutive_failures = 0 ∨
      (processOutcome s o).1.consecutive_successes = 0 := by
  rcases s with ⟨st, cf, cs, ln⟩
  cases st <;> cases o <;>
    simp [processOutcome, handle_status_change, statusOf]

/-- Running the tracker over an appended list splits into two runs. -/
lemma runTracker_append (s : MonitorState) (xs ys : List Bool) :
    runTracker s (xs ++ ys) =
      ((runTracker (runTracker s xs).1 ys).1,
        (runTracker s xs).2 ++ (runTracker (runTracker s xs).1 ys).2) := by
  induction xs generalizing s with
  | nil => simp [runTracker]
  | cons x xs ih => simp [runTracker, ih, List.append_assoc]

/-- Repeating an observation matching the tracked status emits no
notifications and keeps the status. -/
lemma runTracker_replicate_same (s : MonitorState) (o : Bool)
    (h : s.service_status = statusOf o) (n : Nat) :
    (runTracker s (List.replicate n o)).2 = [] ∧
      (runTracker s (List.replicate n o)).1.service_status =
        s.service_status := by
  induction n generalizing s with
  | zero => simp [runTracker]
  | succ n ih =>
    have hstep := processOutcome_same s o h
    have hnext : (processOutcome s o).1.service_status = statusOf o :=
      hstep.2.trans h
    have := ih (processOutcome s o).1 hnext
    simp [List.replicate_succ, runTracker, hstep.1, this.1, this.2,
      hstep.2]

/-- The counters invariant is preserved by a tracker run. -/
lemma runTracker_counter_zero (outcomes : List Bool) (s : MonitorState)
    (h : s.consecutive_failures = 0 ∨ s.consecutive_successes = 0) :
    (runTracker s outcomes).1.consecutive_failures = 0 ∨
      (runTracker s outcomes).1.consecutive_successes = 0 := by
  induction outcomes generalizing s with
  | nil => simpa [runTracker] using h
  | cons o os ih =>
    simpa [runTracker] using
      ih (processOutcome s o).1 (processOutcome_counter_zero s o)

/-! ### Helper lemmas about the retry loop -/

/-- The retry loop starting at attempt `a` with `rem` remaining
attempts never consults an attempt past `a - 1 + rem`. -/
lemma runChecks_bound (probe : Nat → ProbeResult) (rem : Nat) :
    ∀ a : Nat, (runChecks probe a rem).2 ≤ a - 1 + rem := by
  induction rem with
  | zero => intro a; simp [runChecks]
  | succ rem ih =>
    intro a
    by_cases h : attemptSuccess (probe a) = true
    · simp [runChecks, h]; omega
    · have := ih (a + 1)
      simp [runChecks, h]
      omega

/-- If attempt `i` is the first success within the budget, the retry
loop returns `true` having performed exactly `i` attempts. -/
lemma runChecks_first_success (probe : Nat → ProbeResult) (rem : Nat) :
    ∀ a i : Nat, a ≤ i → i < a + rem →
      (∀ j, a ≤ j → j < i → attemptSuccess (probe j) = false) →
      attemptSuccess (probe i) = true →
      runChecks probe a rem = (true, i) := by
  induction rem with
  | zero => intro a i h1 h2 _ _; omega
  | succ rem ih =>
    intro a i h1 h2 hfail hsucc
    by_cases hai : a = i
    · subst hai; simp [runChecks, hsucc]
    · have halt : a < i := lt_of_le_of_ne h1 hai
      have hfa : attemptSuccess (probe a) = false :=
        hfail a (le_refl a) halt
      have : runChecks probe (a + 1) rem = (true, i) := by
        refine ih (a + 1) i halt (by omega) (fun j hj hji => hfail j (by omega) hji) hsucc
      simp [runChecks, hfa, this]

/-! ### Helper lemma about the monitoring loop -/

/-- Without a shutdown flag or interrupt in the trace, the loop in
non-check-once mode processes every iteration and keeps running. -/
lemma monitor_loop_keeps_running (s : MonitorState)
    (trace : List (Bool × IterEvent))
    (h : ∀ e ∈ trace, e.1 = false ∧ e.2 ≠ IterEvent.interrupt) :
    ∃ s', monitor_loop false s trace = LoopResult.running s' := by
  induction trace generalizing s with
  | nil => exact ⟨s, rfl⟩
  | cons e rest ih =>
    obtain ⟨hsd, hev⟩ := h e (List.mem_cons_self e rest)
    have hrest : ∀ x ∈ rest, x.1 = false ∧ x.2 ≠ IterEvent.interrupt :=
      fun x hx => h x (List.mem_cons_of_mem e hx)
    rcases e with ⟨sd, ev⟩
    simp only at hsd
    subst hsd
    cases ev with
    | interrupt => exact absurd rfl hev
    | exn => simpa [monitor_loop] using ih s hrest
    | ok success =>
      simpa [monitor_loop] using ih (processOutcome s success).1 hrest

/-- From a tracked UP state, a failed probe then a successful probe
emit FAILURE then RECOVERY and leave `consecutive_failures = 0`. -/
lemma runTracker_fail_success_from_up (s : MonitorState)
    (h : s.service_status = ServiceStatus.up) :
    (runTracker s [false, true]).2 =
        [Notification.failure, Notification.recovery] ∧
      (runTracker s [false, true]).1.consecutive_failures = 0 := by
  rcases s with ⟨st, cf, cs, ln⟩
  simp only at h
  subst h
  simp [runTracker, processOutcome, handle_status_change, statusOf]

/-! ### Claim theorems -/

/-- C1 counterexample: the claimed if-and-only-if fails on the code.
At the initial state (tracked status "unknown") a successful probe is
an observation that differs from the tracked status, yet
`handle_status_change` emits no notification (line 139 only notifies
when the old status was "down"). -/
theorem C1_counterexample :
    statusOf true ≠ initState.service_status ∧
      (processOutcome initState true).2 = none := by
  decide

/-- C1 (amended): a notification is emitted on an observation if and
only if that observation differs from the currently tracked status AND
the transition is not the silent unknown-to-up one; in particular the
input sequence [fail, fail, fail] from the initial unknown state emits
exactly one FAILURE notification. -/
theorem C1_edge_triggered_amended :
    (∀ (s : MonitorState) (o : Bool),
        ((processOutcome s o).2).isSome = true ↔
          (statusOf o ≠ s.service_status ∧
            ¬ (s.service_status = ServiceStatus.unknown ∧ o = true))) ∧
      (runTracker initState [false, false, false]).2 =
        [Notification.failure] := by
  constructor
  · exact processOutcome_isSome_iff
  · decide

/-- C2 counterexample: HTTP status 201 lies in [200, 299], yet
`check_service` (line 118) counts the attempt as a failure because it
tests `status_code == 200` exactly. -/
theorem C2_counterexample :
    (200 ≤ 201 ∧ 201 ≤ 299) ∧
      attemptSuccess (ProbeResult.response 201) = false := by
  decide

/-- C2 (amended): a probe attempt is counted as success exactly when
the response's HTTP status code equals 200; any other status code and
any transport error is counted as failure. -/
theorem C2_success_is_exact_200 (r : ProbeResult) :
    attemptSuccess r = true ↔ r = ProbeResult.response 200 := by
  cases r <;> simp [attemptSuccess]

/-- C3: for every k ≥ 1, the outcome sequence [success]*k, failure,
success from a tracked UP state emits exactly FAILURE then RECOVERY,
and `consecutive_failures` is 0 immediately after the RECOVERY event
is processed. -/
theorem C3_recovery_round_trip (s : MonitorState) (k : Nat)
    (hk : 1 ≤ k) (hs : s.service_status = ServiceStatus.up) :
    (runTracker s (List.replicate k true ++ [false, true])).2 =
        [Notification.failure, Notification.recovery] ∧
      (runTracker s
          (List.replicate k true ++ [false, true])).1.consecutive_failures
        = 0 := by
  have hrep := runTracker_replicate_same s true hs k
  have hmid : (runTracker s (List.replicate k true)).1.service_status =
      ServiceStatus.up := hrep.2.trans hs
  have htail := runTracker_fail_success_from_up
    (runTracker s (List.replicate k true)).1 hmid
  rw [runTracker_append]
  exact ⟨by rw [hrep.1, htail.1]; rfl, htail.2⟩

/-- C3 witness at k = 1 from a concrete UP state. -/
theorem C3_recovery_round_trip_witness :
    (runTracker
          ⟨ServiceStatus.up, 0, 0, none⟩
          (List.replicate 1 true ++ [false, true])).2 =
        [Notification.failure, Notification.recovery] ∧
      (runTracker
          ⟨ServiceStatus.up, 0, 0, none⟩
          (List.replicate 1 true ++ [false, true])).1.consecutive_failures
        = 0 :=
  C3_recovery_round_trip ⟨ServiceStatus.up, 0, 0, none⟩ 1 (by decide) rfl

/-- C4: if processing outcome `o` causes a transition, processing the
same outcome any further number N of times emits zero additional
notifications and leaves the tracked status unchanged. -/
theorem C4_idempotent_after_transition (s : MonitorState) (o : Bool)
    (N : Nat) (h : statusOf o ≠ s.service_status) :
    (runTracker (processOutcome s o).1 (List.replicate N o)).2 = [] ∧
      (runTracker (processOutcome s o).1
          (List.replicate N o)).1.service_status =
        (processOutcome s o).1.service_status := by
  exact runTracker_replicate_same (processOutcome s o).1 o
    (processOutcome_status s o) N

/-- C4 witness: the initial unknown state, a failing outcome (a
transition), repeated twice more. -/
theorem C4_idempotent_after_transition_witness :
    (runTracker (processOutcome initState false).1
          (List.replicate 2 false)).2 = [] ∧
      (runTracker (processOutcome initState false).1
          (List.replicate 2 false)).1.service_status =
        (processOutcome initState false).1.service_status :=
  C4_idempotent_after_transition initState false 2 (by decide)

/-- C5: `check_service` performs at most `retries` probe attempts, and
if the first successful attempt is attempt i with 1 ≤ i ≤ retries
(all earlier attempts failing), it returns overall success having
performed exactly i attempts — so with retries = 3 and failures on
attempts 1-2 and success on attempt 3, it reports success and never
consults attempt 4. -/
theorem C5_retry_bound :
    (∀ (probe : Nat → ProbeResult) (retries : Nat),
        (check_service probe retries).2 ≤ retries) ∧
      (∀ (probe : Nat → ProbeResult) (retries i : Nat),
        1 ≤ i → i ≤ retries →
        (∀ j, 1 ≤ j → j < i → attemptSuccess (probe j) = false) →
        attemptSuccess (probe i) = true →
        check_service probe retries = (true, i)) := by
  constructor
  · intro probe retries
    simpa using runChecks_bound probe retries 1
  · intro probe retries i h1 h2 hfail hsucc
    exact runChecks_first_success probe retries 1 i h1 (by omega)
      hfail hsucc

/-- C5 witness: a probe failing on attempts 1 and 2 and returning
status 200 on attempt 3, checked with retries = 3. -/
theorem C5_retry_bound_witness :
    check_service
        (fun n => if n = 3 then ProbeResult.response 200
          else ProbeResult.transportError) 3 = (true, 3) ∧
      (check_service
          (fun n => if n = 3 then ProbeResult.response 200
            else ProbeResult.transportError) 3).2 ≤ 3 := by
  refine ⟨C5_retry_bound.2 _ 3 3 (by decide) (by decide) ?_ (by decide), ?_⟩
  · intro j h1 h2
    interval_cases j <;> decide
  · exact C5_retry_bound.1 _ 3

/-- C6: when the PID file records a live process, the daemon start
aborts with the "already running" error and exit code 1 (non-zero),
and the PID file is left unchanged. -/
theorem C6_daemon_singleton (alive : Nat → Bool) (pid : Nat)
    (h : alive pid = true) :
    run_as_daemon_check alive (some (PidContents.valid pid)) =
        (StartOutcome.alreadyRunning pid 1,
          some (PidContents.valid pid)) ∧
      (1 : Nat) ≠ 0 := by
  simp [run_as_daemon_check, h]

/-- C6 witness: PID 42 recorded and alive. -/
theorem C6_daemon_singleton_witness :
    run_as_daemon_check (fun _ => true) (some (PidContents.valid 42)) =
        (StartOutcome.alreadyRunning 42 1,
          some (PidContents.valid 42)) ∧
      (1 : Nat) ≠ 0 :=
  C6_daemon_singleton (fun _ => true) 42 rfl

/-- C7: when the PID file records a dead process, the start check
removes the file and proceeds, and the status command removes the
file and reports not running (stale). -/
theorem C7_stale_pid_cleanup (alive : Nat → Bool) (pid : Nat)
    (h : alive pid = false) :
    run_as_daemon_check alive (some (PidContents.valid pid)) =
        (StartOutcome.proceed, none) ∧
      manage_daemon_status alive (some (PidContents.valid pid)) =
        (StatusReport.notRunningStale, none) := by
  simp [run_as_daemon_check, manage_daemon_status, h]

/-- C7 witness: PID 42 recorded and dead. -/
theorem C7_stale_pid_cleanup_witness :
    run_as_daemon_check (fun _ => false) (some (PidContents.valid 42)) =
        (StartOutcome.proceed, none) ∧
      manage_daemon_status (fun _ => false)
          (some (PidContents.valid 42)) =
        (StatusReport.notRunningStale, none) :=
  C7_stale_pid_cleanup (fun _ => false) 42 rfl

/-- C8: an iteration that raises an unexpected exception never exits
the loop (the exception is caught at the loop boundary and the loop
continues with unchanged state), and outside single-check mode a loop
whose trace never sets the shutdown flag and never gets interrupted
keeps running through the entire trace. -/
theorem C8_loop_survives_exceptions :
    (∀ (check_once : Bool) (s : MonitorState)
        (rest : List (Bool × IterEvent)),
        monitor_loop check_once s ((false, IterEvent.exn) :: rest) =
          monitor_loop check_once s rest) ∧
      (∀ (s : MonitorState) (trace : List (Bool × IterEvent)),
        (∀ e ∈ trace, e.1 = false ∧ e.2 ≠ IterEvent.interrupt) →
        ∃ s', monitor_loop false s trace = LoopResult.running s') := by
  constructor
  · intro check_once s rest
    rfl
  · exact monitor_loop_keeps_running

/-- C8 witness: a two-iteration trace whose first iteration throws. -/
theorem C8_loop_survives_exceptions_witness :
    ∃ s', monitor_loop false initState
        [(false, IterEvent.exn), (false, IterEvent.ok true)] =
      LoopResult.running s' :=
  C8_loop_survives_exceptions.2 initState
    [(false, IterEvent.exn), (false, IterEvent.ok true)] (by decide)

/-- C9 counterexample: a webhook response with status 304 is non-2xx,
yet `raise_for_status` (which raises only for [400, 600)) does not
fire, so no warning is logged for it; the call still raises nothing. -/
theorem C9_counterexample :
    ¬ (200 ≤ 304 ∧ 304 ≤ 299) ∧
      (send_slack_notification false true
          (DeliveryOutcome.delivered 304)).warned = false ∧
      (send_slack_notification false true
          (DeliveryOutcome.delivered 304)).raised = false := by
  decide

/-- C9 (amended): `send_slack_notification` never raises to its
caller, and — with notifications enabled and a webhook configured — a
warning is logged exactly when delivery hits a transport error or a
response whose status code lies in [400, 600). -/
theorem C9_notify_never_raises (no_slack webhook_present : Bool)
    (d : DeliveryOutcome) :
    (send_slack_notification no_slack webhook_present d).raised =
        false ∧
      (no_slack = false → webhook_present = true →
        ((send_slack_notification no_slack webhook_present d).warned =
            true ↔
          (d = DeliveryOutcome.transportError ∨
            ∃ c, d = DeliveryOutcome.delivered c ∧
              400 ≤ c ∧ c < 600))) := by
  constructor
  · cases d with
    | transportError =>
      cases no_slack <;> cases webhook_present <;>
        simp [send_slack_notification]
    | delivered c =>
      cases no_slack <;> cases webhook_present <;>
        by_cases h : 400 ≤ c ∧ c < 600 <;>
          simp [send_slack_notification, h]
  · intro h1 h2
    subst h1; subst h2
    cases d with
    | transportError => simp [send_slack_notification]
    | delivered c =>
      by_cases h : 400 ≤ c ∧ c < 600 <;>
        simp [send_slack_notification, h]

/-- C9 witness: a transport error with notifications enabled. -/
theorem C9_notify_never_raises_witness :
    (send_slack_notification false true
          DeliveryOutcome.transportError).raised = false ∧
      ((send_slack_notification false true
            DeliveryOutcome.transportError).warned = true ↔
        (DeliveryOutcome.transportError =
            DeliveryOutcome.transportError ∨
          ∃ c, DeliveryOutcome.transportError =
              DeliveryOutcome.delivered c ∧ 400 ≤ c ∧ c < 600)) :=
  ⟨(C9_notify_never_raises false true DeliveryOutcome.transportError).1,
    (C9_notify_never_raises false true
        DeliveryOutcome.transportError).2 rfl rfl⟩

/-- C10: starting from the initial state, after any sequence of
processed outcomes at least one of the two consecutive counters is 0
(both are natural numbers, hence non-negative). -/
theorem C10_counters_never_both_positive (outcomes : List Bool) :
    (runTracker initState outcomes).1.consecutive_failures = 0 ∨
      (runTracker initState outcomes).1.consecutive_successes = 0 :=
  runTracker_counter_zero outcomes initState (Or.inl rfl)

end Monitor
